import Mathlib

/-!
Verification of the `httpclient` package (hanke0/subtitles-robot).

The Go source is shallowly embedded: Go pointers that may be nil become
`Option`, Go `error` values become `Option String` (the message), and the
standard-library pieces the package delegates to (net/url parsing,
net/http transport, encoding/json codecs, io writers) are parameters of
the embedded functions.  A runtime nil-dereference panic is modelled by an
`Option`-valued result being `none`.  Invocations of a Request's context
cancel function are counted explicitly (the `Nat` components below), so
resource-release claims become statements about those counts.
-/

namespace Httpclient

/-- One nanosecond-count unit: Go `time.Second` as an `Int` (time.Duration
is an int64 nanosecond count). -/
def second : Int := 1000000000

/-- The fixed default User-Agent string from `New` (httpclient.go line 125). -/
def defaultUA : String :=
  "Mozilla/5.0 (Windows NT 10.0; Win64; x64) AppleWebKit/537.36 (KHTML, like Gecko) Chrome/106.0.0.0 Safari/537.36"

/-- A header map, as an association list; `headerSet` replaces any previous
value for the key, mirroring Go `http.Header.Set`. -/
def headerSet (h : List (String × String)) (k v : String) : List (String × String) :=
  (k, v) :: h.filter (fun p => p.1 ≠ k)

/-- Go `http.Header.Get`: first value for the key, or "" when absent. -/
def headerGet (h : List (String × String)) (k : String) : String :=
  match h.find? (fun p => p.1 = k) with
  | some p => p.2
  | none => ""

/-- The underlying `http.Request`: method, url, body bytes (as a string,
Go strings are byte sequences) and headers. -/
structure HttpRequest where
  method : String
  url : String
  body : String
  header : List (String × String)
deriving Repr, DecidableEq

/-- The underlying `http.Response`: status code and body bytes. -/
structure HttpResponse where
  statusCode : Nat
  body : String
deriving Repr, DecidableEq

/-- `httpclient.Client` (httpclient.go lines 19-24): the embedded
`http.Client`'s cookie jar and proxy transport are flattened in; `transport`
holds the parsed proxy URL when a proxy transport was installed. -/
structure Client where
  jarSet : Bool
  transport : Option String
  timeout : Int
  ua : String
deriving Repr, DecidableEq

/-- `httpclient.Request` (lines 29-34): wrapped request pointer, error,
whether a non-nil Cancel function is attached, and the owning client. -/
structure Request where
  request : Option HttpRequest
  err : Option String
  cancel : Bool
  client : Option Client
deriving Repr, DecidableEq

/-- `httpclient.Response` (lines 38-42): wrapped response pointer,
originating request pointer, and error. -/
structure Response where
  response : Option HttpResponse
  request : Option Request
  err : Option String
deriving Repr, DecidableEq

/-- `httpclient.Options` (lines 107-117). -/
structure Options where
  proxy : String
  ua : String
  timeout : Int
deriving Repr, DecidableEq

/-- `New` (lines 120-145), parameterised over stdlib `url.Parse`
(`parseURL` returns the parsed proxy URL or an error message).  The
defaults are set first; a non-empty Proxy is parsed and a parse failure
aborts construction; Timeout > 0 and a non-empty UA override the defaults. -/
def New (parseURL : String → Except String String) (o : Option Options) :
    Except String Client :=
  let c : Client :=
    { jarSet := true, transport := none, timeout := 30 * second, ua := defaultUA }
  match o with
  | none => .ok c
  | some o =>
    match (if o.proxy ≠ "" then
            match parseURL o.proxy with
            | .error e => .error e
            | .ok u => .ok { c with transport := some u }
          else .ok c : Except String Client) with
    | .error e => .error e
    | .ok c =>
      let c := if o.timeout > 0 then { c with timeout := o.timeout } else c
      let c := if o.ua ≠ "" then { c with ua := o.ua } else c
      .ok c

/-- `setDefault` (lines 147-149): sets the User-Agent header to the
client's UA. -/
def Client.setDefault (c : Client) (r : HttpRequest) : HttpRequest :=
  { r with header := headerSet r.header "User-Agent" c.ua }

/-- Modelled stdlib `http.NewRequestWithContext`: validates/parses the URL
(abstracted as the predicate `parseOk`); on success the returned request
carries the given method, url and body and an empty header map. -/
def NewRequestWithContext (parseOk : String → Bool) (method url body : String) :
    Except String HttpRequest :=
  if parseOk url then .ok { method := method, url := url, body := body, header := [] }
  else .error ("net/url: invalid URL: " ++ url)

/-- `makeRequest` (lines 156-165).  `context.WithTimeout` allocates a
cancel function; on a build failure the code calls `cancel()` and returns
a Request holding only the error (its Cancel field is nil).  Note the
source passes the literal string "GET" to `http.NewRequestWithContext`,
ignoring its `method` parameter.  The second component counts the cancel
invocations performed during construction. -/
def Client.makeRequest (parseOk : String → Bool) (c : Client)
    (_method url : String) (body : String) : Request × Nat :=
  match NewRequestWithContext parseOk "GET" url body with
  | .error e => ({ request := none, err := some e, cancel := false, client := none }, 1)
  | .ok r =>
    ({ request := some (c.setDefault r), err := none, cancel := true,
       client := some c }, 0)

/-- `Get` (lines 152-154): a GET request with a nil body. -/
def Client.Get (parseOk : String → Bool) (c : Client) (url : String) : Request × Nat :=
  c.makeRequest parseOk "GET" url ""

/-- `req.Header.Set("Content-Type", ct)` on a wrapper Request whose inner
request is present (PostJSON/PostForm apply it only when `Err` is nil). -/
def Request.setContentType (req : Request) (ct : String) : Request :=
  { req with request := req.request.map (fun r => { r with header := headerSet r.header "Content-Type" ct }) }

/-- `PostJSON` (lines 168-179), parameterised over stdlib `json.Marshal`
for the body's type.  A marshal failure yields an error-only Request (no
cancel function was ever allocated); otherwise the shared builder runs and
on success the Content-Type header is set to application/json. -/
def Client.PostJSON {A : Type} (marshal : A → Except String String)
    (parseOk : String → Bool) (c : Client) (url : String) (body : A) :
    Request × Nat :=
  match marshal body with
  | .error e => ({ request := none, err := some e, cancel := false, client := none }, 0)
  | .ok data =>
    let p := c.makeRequest parseOk "POST" url data
    if p.1.err.isSome then p
    else (p.1.setContentType "application/json", p.2)

/-- `PostForm` (lines 182-189), parameterised over stdlib
`url.Values.Encode` for the form values.  On success the Content-Type
header is set to application/x-www-form-urlencoded. -/
def Client.PostForm (encode : List (String × String) → String)
    (parseOk : String → Bool) (c : Client) (url : String)
    (values : List (String × String)) : Request × Nat :=
  let p := c.makeRequest parseOk "POST" url (encode values)
  if p.1.err.isSome then p
  else (p.1.setContentType "application/x-www-form-urlencoded", p.2)

/-- `Invoke` (lines 47-56), parameterised over the transport
(`doReq`, modelling `http.Client.Do` under the client's configuration).
An error-carrying Request short-circuits; a transport failure yields an
error-carrying Response; otherwise the live response is wrapped.  `none`
models the nil-Client panic (unreachable for built requests). -/
def Request.Invoke (doReq : Client → Option HttpRequest → Except String HttpResponse)
    (req : Request) : Option Response :=
  match req.err with
  | some e => some { response := none, request := some req, err := some e }
  | none =>
    match req.client with
    | none => none
    | some c =>
      match doReq c req.request with
      | .error e => some { response := none, request := some req, err := some e }
      | .ok rsp => some { response := some rsp, request := some req, err := none }

/-- `checkStatusCode` (lines 98-104): on a status other than 200, the body
is read (best effort) and an error "Response %d, body=%s" is produced. -/
def checkStatusCode (rsp : HttpResponse) : Option String :=
  if rsp.statusCode ≠ 200 then
    some ("Response " ++ toString rsp.statusCode ++ ", body=" ++ rsp.body)
  else none

/-- `Drop` (lines 60-67).  Result: the returned error and the number of
cancel invocations performed.  A Response carrying an error returns it at
once (no cancel, no body access); otherwise Cancel and Body.Close are
deferred and the status check runs.  `none` models the panic on a nil
request/cancel/response (unreachable for invoked responses). -/
def Response.Drop (rsp : Response) : Option (Option String × Nat) :=
  match rsp.err with
  | some e => some (some e, 0)
  | none =>
    match rsp.request, rsp.response with
    | some req, some r => if req.cancel then some (checkStatusCode r, 1) else none
    | _, _ => none

/-- `JSON` (lines 71-82), parameterised over stdlib `json.Decoder.Decode`
for the target's type (`decode` applied to the body bytes).  Result:
`.ok a` means the target was filled with `a`; `.error` carries the
returned error; the `Nat` counts cancel invocations. -/
def Response.JSON {A : Type} (decode : String → Except String A)
    (rsp : Response) : Option (Except String A × Nat) :=
  match rsp.err with
  | some e => some (.error e, 0)
  | none =>
    match rsp.request, rsp.response with
    | some req, some r =>
      if req.cancel then
        match checkStatusCode r with
        | some e => some (.error e, 1)
        | none => some (decode r.body, 1)
      else none
    | _, _ => none

/-- `WriteTo` (lines 86-96), parameterised over the destination writer:
`w` takes the writer state and the data and returns the new state, the
byte count written and an optional write error (`io.Copy` of an in-memory
body, propagating writer failures).  Result: final writer state, the
returned int64 count, the returned error, and the cancel-invocation
count. -/
def Response.WriteTo {W : Type} (w : W → String → W × Nat × Option String)
    (s : W) (rsp : Response) : Option (W × Int × Option String × Nat) :=
  match rsp.err with
  | some e => some (s, 0, some e, 0)
  | none =>
    match rsp.request, rsp.response with
    | some req, some r =>
      if req.cancel then
        match checkStatusCode r with
        | some e => some (s, 0, some e, 1)
        | none =>
          match w s r.body with
          | (s2, n, werr) => some (s2, (n : Int), werr, 1)
      else none
    | _, _ => none

/-- A concrete in-memory writer that accumulates everything written to it
and never fails; the count is the UTF-8 byte size, matching Go's byte
counting. -/
def stringWriter : String → String → String × Nat × Option String :=
  fun s d => (s ++ d, d.utf8ByteSize, none)

/-- `s` has `t` as a substring. -/
def ContainsSub (s t : String) : Prop := ∃ a b, s = a ++ t ++ b

/-- The client `New` yields for absent options. -/
def defaultClient : Client :=
  { jarSet := true, transport := none, timeout := 30 * second, ua := defaultUA }

/-- A URL-validity predicate accepting every string (all the sample URLs
below are well formed). -/
def allURLsOk : String → Bool := fun _ => true

/-- A transport that always fails (e.g. connection refused): models a
network-level failure of `http.Client.Do`. -/
def failTransport : Client → Option HttpRequest → Except String HttpResponse :=
  fun _ _ => .error "connection refused"

/-- An echo transport: answers 200 with the request body as the response
body (the test endpoint of the round-trip property). -/
def doEcho : Client → Option HttpRequest → Except String HttpResponse :=
  fun _ oreq =>
    match oreq with
    | some r => .ok { statusCode := 200, body := r.body }
    | none => .error "nil request"

/-- A sample successfully-built Request (what `makeRequest` returns for a
valid URL on the default client). -/
def sampleRequest : Request :=
  (defaultClient.Get allURLsOk "http://example.com/x").1

/-- The full `Get(url).Invoke().Drop()` pipeline, returning the total
number of cancel invocations over the whole path (`none` models a panic). -/
def getDropCancelCount (parseOk : String → Bool)
    (doReq : Client → Option HttpRequest → Except String HttpResponse)
    (c : Client) (url : String) : Option Nat :=
  let p := c.Get parseOk url
  match p.1.Invoke doReq with
  | none => none
  | some rsp =>
    match rsp.Drop with
    | none => none
    | some q => some (p.2 + q.2)

/-- C1: the claim states that requests built by `PostJSON` and `PostForm`
carry HTTP method POST.  The code's shared builder passes the literal
"GET" to the request constructor, ignoring its method argument
(httpclient.go line 158), so both helpers produce method "GET": evaluated
here on a concrete well-formed URL.  This contradicts the package's own
doc comments ("creates a HTTP POST request"). -/
theorem postJSON_postForm_method_is_get :
    ((defaultClient.PostJSON (fun s : String => .ok s) allURLsOk
        "http://example.com/api" "{}").1.request.map HttpRequest.method = some "GET")
    ∧ ((defaultClient.PostForm (fun _ => "k=v") allURLsOk
        "http://example.com/api" [("k", "v")]).1.request.map HttpRequest.method = some "GET") :=
  ⟨rfl, rfl⟩

/-- C4: `New` with absent options yields the 30-second timeout, the fixed
default desktop-browser UA and no proxy transport; with options (proxy
empty here, C8 covers the proxy), Timeout > 0 overrides the default while
Timeout ≤ 0 keeps it, and a non-empty UA overrides while an empty UA keeps
the default. -/
theorem New_defaults_and_overrides (p : String → Except String String)
    (o : Options) (h : o.proxy = "") :
    New p none = .ok defaultClient
    ∧ New p (some o) = .ok (Client.mk true none
        (if o.timeout > 0 then o.timeout else 30 * second)
        (if o.ua = "" then defaultUA else o.ua)) := by
  constructor
  · rfl
  · simp only [New, h]
    split_ifs with h1 h2 h2 <;> simp_all [defaultClient]

/-- C4 witness: the overrides at a concrete options value (timeout 5,
UA "bot"). -/
theorem New_defaults_and_overrides_witness :
    New (fun s => .ok s) none = .ok defaultClient
    ∧ New (fun s => .ok s) (some { proxy := "", ua := "bot", timeout := 5 }) =
        .ok (Client.mk true none
          (if (5 : Int) > 0 then 5 else 30 * second)
          (if "bot" = "" then defaultUA else "bot")) :=
  New_defaults_and_overrides (fun s => .ok s) { proxy := "", ua := "bot", timeout := 5 } rfl

/-- C8: a non-empty proxy string that fails URL parsing makes `New`
return the parse error and no Client (the `Except.error` branch carries
no client value); construction is pure, so no network I/O is involved. -/
theorem New_malformed_proxy_fails (p : String → Except String String)
    (o : Options) (e : String) (h1 : o.proxy ≠ "") (h2 : p o.proxy = .error e) :
    New p (some o) = .error e := by
  simp only [New, h2]
  rw [if_pos h1]

/-- C8 witness: a concrete malformed proxy. -/
theorem New_malformed_proxy_fails_witness :
    New (fun _ => .error "parse \"://bad\": missing protocol scheme")
      (some { proxy := "://bad", ua := "", timeout := 0 }) =
      .error "parse \"://bad\": missing protocol scheme" :=
  New_malformed_proxy_fails _ _ _ (by decide) rfl

/-- C10: whenever `Invoke` returns (it panics only on a nil client, which
no built request has), the Response's back-reference is the originating
Request, and exactly one of the wrapped response and the error is set:
never both, never neither. -/
theorem Invoke_response_invariant
    (doReq : Client → Option HttpRequest → Except String HttpResponse)
    (req : Request) (rsp : Response) (h : req.Invoke doReq = some rsp) :
    rsp.request = some req
    ∧ ((rsp.response.isSome ∧ rsp.err = none) ∨ (rsp.response = none ∧ rsp.err.isSome)) := by
  unfold Request.Invoke at h
  cases he : req.err with
  | some e =>
    simp only [he] at h
    cases h
    exact ⟨rfl, Or.inr ⟨rfl, rfl⟩⟩
  | none =>
    simp only [he] at h
    cases hc : req.client with
    | none => simp only [hc] at h; cases h
    | some c =>
      simp only [hc] at h
      cases hd : doReq c req.request with
      | error e => simp only [hd] at h; cases h; exact ⟨rfl, Or.inr ⟨rfl, rfl⟩⟩
      | ok r => simp only [hd] at h; cases h; exact ⟨rfl, Or.inl ⟨rfl, rfl⟩⟩

/-- C10 witness: the invariant at a concrete built request under the
failing transport. -/
theorem Invoke_response_invariant_witness :
    (Response.mk none (some sampleRequest) (some "connection refused")).request
        = some sampleRequest
    ∧ (((Response.mk none (some sampleRequest) (some "connection refused")).response.isSome
          ∧ (Response.mk none (some sampleRequest) (some "connection refused")).err = none)
        ∨ ((Response.mk none (some sampleRequest) (some "connection refused")).response = none
          ∧ (Response.mk none (some sampleRequest) (some "connection refused")).err.isSome)) :=
  Invoke_response_invariant failTransport sampleRequest _ rfl

/-- C5: a Request carrying an error is never sent: `Invoke` returns a
Response with the same error and no wrapped response; and each of `Drop`,
`JSON` and `WriteTo` on an error-carrying Response returns that error at
once, performing no cancel invocation, writing nothing to the sink and
reporting 0 bytes. -/
theorem construction_error_short_circuit {A W : Type}
    (doReq : Client → Option HttpRequest → Except String HttpResponse)
    (dec : String → Except String A) (w : W → String → W × Nat × Option String)
    (s : W) (req : Request) (rsp : Response) (e e2 : String)
    (h : req.err = some e) (h2 : rsp.err = some e2) :
    req.Invoke doReq = some (Response.mk none (some req) (some e))
    ∧ rsp.Drop = some (some e2, 0)
    ∧ rsp.JSON dec = some (.error e2, 0)
    ∧ rsp.WriteTo w s = some (s, 0, some e2, 0) := by
  unfold Request.Invoke Response.Drop Response.JSON Response.WriteTo
  rw [h, h2]
  exact ⟨rfl, rfl, rfl, rfl⟩

/-- C5 witness: a request whose URL failed to build (empty parse success
set), and the response it short-circuits to. -/
theorem construction_error_short_circuit_witness :
    (defaultClient.Get (fun _ => false) "cache_object://bad").1.Invoke failTransport
      = some (Response.mk none (some (defaultClient.Get (fun _ => false) "cache_object://bad").1)
          (some "net/url: invalid URL: cache_object://bad"))
    ∧ (Response.mk none none (some "boom")).Drop = some (some "boom", 0)
    ∧ (Response.mk none none (some "boom")).JSON (fun s => (.ok s : Except String String))
        = some (.error "boom", 0)
    ∧ (Response.mk none none (some "boom")).WriteTo stringWriter "" = some ("", 0, some "boom", 0) :=
  construction_error_short_circuit failTransport (fun s => (.ok s : Except String String))
    stringWriter "" _ _ _ _ rfl rfl

/-- C3: the claim states the cancel function is invoked exactly once on
every path, including transport failure.  On the transport-failure path
the code invokes it zero times: `makeRequest` succeeds without calling
cancel, `Invoke` returns an error-carrying Response, and `Drop` returns
that error before its deferred `rsp.Request.Cancel()` is ever registered
(httpclient.go lines 61-64), leaking the timeout context.  Evaluated on a
concrete valid URL with a failing transport: the total count is 0, not 1.
(The other paths do cancel exactly once: build failure cancels inside
`makeRequest`; success and non-200 cancel inside the consuming helper.) -/
theorem transport_failure_never_cancels :
    getDropCancelCount allURLsOk failTransport defaultClient "http://example.com/" = some 0
    ∧ getDropCancelCount (fun _ => false) failTransport defaultClient "bad url" = some 1
    ∧ getDropCancelCount allURLsOk (fun _ _ => .ok (HttpResponse.mk 200 "ok"))
        defaultClient "http://example.com/" = some 1
    ∧ getDropCancelCount allURLsOk (fun _ _ => .ok (HttpResponse.mk 404 "not found"))
        defaultClient "http://example.com/" = some 1 :=
  ⟨rfl, rfl, rfl, rfl⟩

/-- C2: on an error-free Response whose status code is not 200, `Drop`,
`JSON` and `WriteTo` all return the same non-nil error, whose message
contains both the status code and the raw body text (it is
"Response {code}, body={body}"); on status 200, `Drop` returns nil. -/
theorem non200_status_error {A W : Type} (dec : String → Except String A)
    (w : W → String → W × Nat × Option String) (s : W)
    (rsp : Response) (req : Request) (r : HttpResponse)
    (h1 : rsp.err = none) (h2 : rsp.request = some req)
    (h3 : rsp.response = some r) (h4 : req.cancel = true) :
    (r.statusCode ≠ 200 →
      ∃ msg, rsp.Drop = some (some msg, 1)
        ∧ rsp.JSON dec = some (.error msg, 1)
        ∧ rsp.WriteTo w s = some (s, 0, some msg, 1)
        ∧ ContainsSub msg (toString r.statusCode)
        ∧ ContainsSub msg r.body)
    ∧ (r.statusCode = 200 → rsp.Drop = some (none, 1)) := by
  unfold Response.Drop Response.JSON Response.WriteTo
  simp only [h1, h2, h3, h4]
  constructor
  · intro hne
    refine ⟨"Response " ++ toString r.statusCode ++ ", body=" ++ r.body, ?_, ?_, ?_, ?_, ?_⟩
    · simp [checkStatusCode, hne]
    · simp [checkStatusCode, hne]
    · simp [checkStatusCode, hne]
    · exact ⟨"Response ", ", body=" ++ r.body, by rw [String.append_assoc]⟩
    · exact ⟨"Response " ++ toString r.statusCode ++ ", body=", "",
        by rw [String.append_empty]⟩
  · intro h200
    simp [checkStatusCode, h200]

/-- C2 witness: a 404 response with body "not found": the returned error
message contains "404" and "not found"; and a 200 response makes `Drop`
return nil. -/
theorem non200_status_error_witness :
    ((404 : Nat) ≠ 200 →
      ∃ msg, (Response.mk (some (HttpResponse.mk 404 "not found")) (some sampleRequest) none).Drop
          = some (some msg, 1)
        ∧ (Response.mk (some (HttpResponse.mk 404 "not found")) (some sampleRequest) none).JSON
            (fun s => (.ok s : Except String String)) = some (.error msg, 1)
        ∧ (Response.mk (some (HttpResponse.mk 404 "not found")) (some sampleRequest) none).WriteTo
            stringWriter "" = some ("", 0, some msg, 1)
        ∧ ContainsSub msg (toString (404 : Nat))
        ∧ ContainsSub msg "not found")
    ∧ ((404 : Nat) = 200 →
      (Response.mk (some (HttpResponse.mk 404 "not found")) (some sampleRequest) none).Drop
          = some (none, 1)) :=
  non200_status_error (fun s => (.ok s : Except String String)) stringWriter ""
    (Response.mk (some (HttpResponse.mk 404 "not found")) (some sampleRequest) none)
    sampleRequest (HttpResponse.mk 404 "not found") rfl rfl rfl rfl

/-- C6: on an error-free Response with status exactly 200, `WriteTo`
passes exactly the body bytes to the writer: with the accumulating string
writer the sink receives precisely the body, the returned count is its
byte size and the error is nil; for an arbitrary writer the writer's own
result (count and possible I/O failure) is propagated unchanged. -/
theorem writeTo_copies_exact_body {W : Type}
    (w : W → String → W × Nat × Option String) (s : W) (acc : String)
    (rsp : Response) (req : Request) (r : HttpResponse)
    (h1 : rsp.err = none) (h2 : rsp.request = some req)
    (h3 : rsp.response = some r) (h4 : req.cancel = true)
    (h5 : r.statusCode = 200) :
    rsp.WriteTo stringWriter acc
        = some (acc ++ r.body, (r.body.utf8ByteSize : Int), none, 1)
    ∧ rsp.WriteTo w s
        = some ((w s r.body).1, ((w s r.body).2.1 : Int), (w s r.body).2.2, 1) := by
  unfold Response.WriteTo
  simp only [h1, h2, h3, h4]
  simp [checkStatusCode, h5, stringWriter]

/-- C6 witness: a 200 response with body "1\n" written into an initially
empty string sink: the sink receives exactly "1\n" and the count is 2. -/
theorem writeTo_copies_exact_body_witness :
    (Response.mk (some (HttpResponse.mk 200 "1\n")) (some sampleRequest) none).WriteTo
        stringWriter "" = some ("" ++ "1\n", (("1\n").utf8ByteSize : Int), none, 1)
    ∧ (Response.mk (some (HttpResponse.mk 200 "1\n")) (some sampleRequest) none).WriteTo
        stringWriter "" = some ((stringWriter "" "1\n").1,
          (((stringWriter "" "1\n").2.1 : Nat) : Int), (stringWriter "" "1\n").2.2, 1) :=
  writeTo_copies_exact_body stringWriter "" ""
    (Response.mk (some (HttpResponse.mk 200 "1\n")) (some sampleRequest) none)
    sampleRequest (HttpResponse.mk 200 "1\n") rfl rfl rfl rfl rfl

/-- C9: every successfully built request carries a User-Agent header
equal to the owning client's configured UA; `PostJSON` additionally sets
Content-Type application/json and `PostForm` sets Content-Type
application/x-www-form-urlencoded (and both keep the UA header). -/
theorem built_request_headers {A : Type} (enc : A → Except String String)
    (encForm : List (String × String) → String) (parseOk : String → Bool)
    (c : Client) (url : String) (a : A) (sa : String)
    (vals : List (String × String))
    (hurl : parseOk url = true) (henc : enc a = .ok sa) :
    ((c.Get parseOk url).1.request.map (fun r => headerGet r.header "User-Agent")
        = some c.ua)
    ∧ ((c.PostJSON enc parseOk url a).1.request.map
        (fun r => (headerGet r.header "User-Agent", headerGet r.header "Content-Type"))
        = some (c.ua, "application/json"))
    ∧ ((c.PostForm encForm parseOk url vals).1.request.map
        (fun r => (headerGet r.header "User-Agent", headerGet r.header "Content-Type"))
        = some (c.ua, "application/x-www-form-urlencoded")) := by
  simp [Client.Get, Client.PostJSON, Client.PostForm, Client.makeRequest,
    NewRequestWithContext, hurl, henc, Client.setDefault, Request.setContentType,
    headerSet, headerGet, List.find?, List.filter]

/-- C9 witness: the headers at a concrete client, URL, JSON body and form
value list. -/
theorem built_request_headers_witness :
    ((defaultClient.Get allURLsOk "http://example.com/h").1.request.map
        (fun r => headerGet r.header "User-Agent") = some defaultClient.ua)
    ∧ ((defaultClient.PostJSON (fun s : String => .ok s) allURLsOk "http://example.com/h" "{}").1.request.map
        (fun r => (headerGet r.header "User-Agent", headerGet r.header "Content-Type"))
        = some (defaultClient.ua, "application/json"))
    ∧ ((defaultClient.PostForm (fun _ => "k=v") allURLsOk "http://example.com/h" [("k", "v")]).1.request.map
        (fun r => (headerGet r.header "User-Agent", headerGet r.header "Content-Type"))
        = some (defaultClient.ua, "application/x-www-form-urlencoded")) :=
  built_request_headers (fun s : String => .ok s) (fun _ => "k=v") allURLsOk
    defaultClient "http://example.com/h" "{}" "{}" [("k", "v")] rfl rfl

/-- C7: round-trip through an echoing endpoint: for any JSON codec that
round-trips on the value (the stdlib guarantee for simple field-comparable
types), serialising `a` with `PostJSON`, invoking against the echo
transport and decoding with `JSON` fills the target with a value equal to
the original `a`. -/
theorem postJSON_echo_JSON_roundtrip {A : Type}
    (enc : A → Except String String) (dec : String → Except String A)
    (hrt : ∀ x s, enc x = .ok s → dec s = .ok x)
    (parseOk : String → Bool) (c : Client) (url : String) (a : A) (sa : String)
    (henc : enc a = .ok sa) (hurl : parseOk url = true) :
    ∃ rsp, (c.PostJSON enc parseOk url a).1.Invoke doEcho = some rsp
      ∧ rsp.JSON dec = some (.ok a, 1) := by
  have hdec : dec sa = .ok a := hrt a sa henc
  have hbuilt : (c.PostJSON enc parseOk url a).1
      = Request.mk (some (HttpRequest.mk "GET" url sa
          (headerSet (headerSet [] "User-Agent" c.ua) "Content-Type" "application/json")))
        none true (some c) := by
    simp [Client.PostJSON, Client.makeRequest, NewRequestWithContext, hurl, henc,
      Client.setDefault, Request.setContentType]
  refine ⟨Response.mk (some (HttpResponse.mk 200 sa))
    (some ((c.PostJSON enc parseOk url a).1)) none, ?_, ?_⟩
  · rw [hbuilt]; rfl
  · rw [hbuilt]
    simp [Response.JSON, checkStatusCode, hdec]

/-- C7 witness: the round-trip at the identity codec on strings (a simple
field-comparable type) with the value "hello". -/
theorem postJSON_echo_JSON_roundtrip_witness :
    ∃ rsp, (defaultClient.PostJSON (fun s : String => .ok s) allURLsOk
        "http://example.com/echo" "hello").1.Invoke doEcho = some rsp
      ∧ rsp.JSON (fun s : String => (.ok s : Except String String)) = some (.ok "hello", 1) :=
  postJSON_echo_JSON_roundtrip (fun s : String => .ok s) (fun s => .ok s)
    (fun x s hx => by cases hx; rfl) allURLsOk defaultClient
    "http://example.com/echo" "hello" "hello" rfl rfl

end Httpclient
